import Mathlib

/-!
# Verification of the wrought_iron data-integrity core

A shallow embedding of the data-integrity and versioning subsystem of the
`wrought_iron` CLI: the fingerprint engine (`hash_create` / `hash_verify` in
`src/wrought_iron/cli/audit.py`), the snapshot catalog (`snapshot` /
`rollback` in the same file), and the drift detector (`drift_check` in
`src/wrought_iron/cli/ops.py`).

Modelling conventions:

* SQLite values are modelled by `Value` (NULL, integer, text); SQLite's
  cross-type ordering (NULL < numbers < text) is `Value.le`.
* A table is its `PRAGMA table_info` output (`ColInfo`: column name, declared
  type, and the pk field, positive exactly on primary-key members, in column
  declaration order) together with its rows in storage order; each row lists
  the values in declared column order.
* The cryptographic hash is modelled collision-freely: a `Digest` is the
  algorithm tag together with the exact sequence of byte strings fed to the
  hashlib object via `update` (salt first, then the optional DDL, then each
  chunk's JSON).  Two digests are equal iff the streams are equal; the hex
  string's length is 64 for sha256 and 128 for sha512, which is all
  `hash_verify` inspects to re-derive the algorithm.
* `pandas.read_sql_query(..., chunksize=n)` yields the result rows in
  `n`-row chunks and, for an empty result set, yields a single empty
  DataFrame that still carries the column names; `chunksWithEmpty` models
  this.  Each chunk is serialized with `to_json(orient='split')`, which
  records the column names, the integer index and the row data;
  `chunkToJson` models that serialization (string escaping is omitted: the
  developments below only use values that need none).
* The database is a map from table name to table data plus the rows of the
  `_wi_snapshots` catalog table (timestamps are irrelevant to every property
  below and are omitted from the catalog entries).
* `CREATE TABLE ... AS SELECT *` copies names, rows and value contents but
  produces a table with no primary key and with declared types reduced to
  the source columns' affinities (`ctasTable`).
* Python's `sqlite3` module only opens implicit transactions before DML
  statements; DDL such as `DROP TABLE` and `CREATE TABLE ... AS` runs in
  autocommit mode, so in `rollback` the `DROP TABLE` is already durable when
  the subsequent `CREATE TABLE ... AS` starts.  `rollback` is therefore
  modelled with an explicit fault point between the two statements.
-/

/-- SQLite scalar values as they reach pandas: NULL, integers, text. -/
inductive Value where
  | null : Value
  | int (i : Int) : Value
  | text (s : String) : Value
deriving DecidableEq, Repr

/-- One row of `PRAGMA table_info`: column name, declared type, and the pk
column of the pragma output (positive exactly for primary-key members). -/
structure ColInfo where
  name : String
  declType : String
  pk : Nat
deriving DecidableEq, Repr

/-- A table: its `PRAGMA table_info` rows in declaration order, and its rows
in storage order, each row holding the values in declared column order. -/
structure TableData where
  info : List ColInfo
  rows : List (List Value)
deriving DecidableEq, Repr

/-- The two supported hash algorithms (`HashAlgo` in audit.py). -/
inductive HashAlgo where
  | sha256 : HashAlgo
  | sha512 : HashAlgo
deriving DecidableEq, Repr

/-- A hex digest, modelled collision-freely as the algorithm together with
the exact sequence of strings fed to the hash object. -/
structure Digest where
  algo : HashAlgo
  transcript : List String
deriving DecidableEq, Repr

/-- The length of the hex-encoded digest string: 64 for sha256, 128 for
sha512; this is the only attribute of the expected hash string that
`hash_verify` inspects before comparing for equality. -/
def Digest.strLen (d : Digest) : Nat :=
  match d.algo with
  | .sha256 => 64
  | .sha512 => 128

/-- The error taxonomy of the audited commands. -/
inductive AuditError where
  | notFound : AuditError
  | alreadyExists : AuditError
  | invalidOptions : AuditError
  | storageError : AuditError
deriving DecidableEq, Repr

/-! ## Value ordering (SQLite ORDER BY, ascending, NULLs first) -/

/-- SQLite cross-type comparison used by ORDER BY: NULL sorts before
integers, integers before text; within a type the natural order. -/
def Value.le : Value → Value → Bool
  | .null, _ => true
  | _, .null => false
  | .int a, .int b => decide (a ≤ b)
  | .int _, .text _ => true
  | .text _, .int _ => false
  | .text a, .text b => !decide (b < a)

/-- Lexicographic comparison of sort-key tuples. -/
def valsLe : List Value → List Value → Bool
  | [], _ => true
  | _ :: _, [] => false
  | a :: as, b :: bs => if a = b then valsLe as bs else Value.le a b

/-- Insert into a sorted list (helper for `sortBy`). -/
def insertSorted (le : α → α → Bool) (a : α) : List α → List α
  | [] => [a]
  | b :: l => if le a b then a :: b :: l else b :: insertSorted le a l

/-- Deterministic comparison sort modelling the SQL ORDER BY. -/
def sortBy (le : α → α → Bool) : List α → List α
  | [] => []
  | a :: l => insertSorted le a (sortBy le l)

/-! ## Column pipeline (audit.py lines 157-172 and 230-243) -/

/-- `all_cols = [info[1] for info in table_info]`. -/
def allCols (info : List ColInfo) : List String :=
  info.map (·.name)

/-- `pk_cols = [info[1] for info in table_info if info[5] > 0]`. -/
def pkCols (info : List ColInfo) : List String :=
  (info.filter (fun ci => ci.pk > 0)).map (·.name)

/-- `hash_create`'s `query_cols = [c for c in all_cols if c not in cols_to_exclude]`. -/
def hash_create_queryCols (info : List ColInfo) (colsToExclude : List String) : List String :=
  (allCols info).filter (fun c => !colsToExclude.contains c)

/-- `hash_create`'s `order_by = pk_cols if pk_cols else query_cols`
(rendered as the list of sort-key columns rather than a joined string). -/
def hash_create_orderBy (info : List ColInfo) (colsToExclude : List String) : List String :=
  if pkCols info ≠ [] then pkCols info else hash_create_queryCols info colsToExclude

/-- `hash_verify`'s `query_cols` (the same pipeline, duplicated in the
source at lines 239-241). -/
def hash_verify_queryCols (info : List ColInfo) (colsToExclude : List String) : List String :=
  (allCols info).filter (fun c => !colsToExclude.contains c)

/-- `hash_verify`'s `order_by = pk_cols if pk_cols else query_cols`. -/
def hash_verify_orderBy (info : List ColInfo) (colsToExclude : List String) : List String :=
  if pkCols info ≠ [] then pkCols info else hash_verify_queryCols info colsToExclude

/-- The position of a named column in the declared schema (the schema's
length when the name is absent). -/
def colIdx (info : List ColInfo) (c : String) : Nat :=
  match info with
  | [] => 0
  | ci :: rest => if ci.name = c then 0 else colIdx rest c + 1

/-- The value a row holds in a named column: position of the column in the
declared schema, defaulting to NULL when the name is absent. -/
def rowVal (info : List ColInfo) (row : List Value) (c : String) : Value :=
  row.getD (colIdx info c) .null

/-- The sort key a row contributes under an ORDER BY column list. -/
def sortKey (info : List ColInfo) (order : List String) (row : List Value) : List Value :=
  order.map (rowVal info row)

/-- The projection of a row onto the selected columns, in selection order. -/
def projectRow (info : List ColInfo) (cols : List String) (row : List Value) : List Value :=
  cols.map (rowVal info row)

/-- The result sequence of `SELECT query_cols FROM t ORDER BY order_by`:
rows sorted by the sort key (ascending, NULLs first), then projected onto
the selected columns. -/
def selectOrdered (t : TableData) (cols order : List String) : List (List Value) :=
  (sortBy (fun r s => valsLe (sortKey t.info order r) (sortKey t.info order s)) t.rows).map
    (projectRow t.info cols)

/-! ## Chunking and serialization -/

/-- Recursion core of `chunksOf`, structural in the fuel. -/
def chunksOfAux (cs : Nat) : Nat → List α → List (List α)
  | _, [] => []
  | 0, _ :: _ => []
  | fuel + 1, a :: rest => ((a :: rest).take cs) :: chunksOfAux cs fuel ((a :: rest).drop cs)

/-- Partition a list into chunks of `cs` elements.  The fuel argument only
bounds the recursion (it is never exhausted when `cs` is positive, the only
case the commands reach: `cs = 0` is an invalid pandas chunksize rejected
upstream). -/
def chunksOf (cs : Nat) (l : List α) : List (List α) :=
  chunksOfAux cs l.length l

/-- The chunk sequence pandas yields: `n`-row chunks of the result, and for
an empty result a single empty chunk that still carries the column names. -/
def chunksWithEmpty (cs : Nat) (l : List α) : List (List α) :=
  match l with
  | [] => [[]]
  | _ :: _ => chunksOf cs l

/-- JSON string literal (escaping omitted; no value used below needs it). -/
def jsonStr (s : String) : String :=
  "\"" ++ s ++ "\""

/-- Comma-joined rendering of a list of fragments. -/
def joinComma : List String → String
  | [] => ""
  | [s] => s
  | s :: l => s ++ "," ++ joinComma l

/-- JSON array rendering. -/
def jsonArr (l : List String) : String :=
  "[" ++ joinComma l ++ "]"

/-- JSON rendering of a scalar value. -/
def Value.toJson : Value → String
  | .null => "null"
  | .int i => toString i
  | .text s => jsonStr s

/-- `chunk.to_json(orient='split', date_format='iso')`: an object recording
the column names, the chunk's integer index and the row data. -/
def chunkToJson (cols : List String) (rows : List (List Value)) : String :=
  "\x7b\"columns\":" ++ jsonArr (cols.map jsonStr) ++
  ",\"index\":" ++ jsonArr ((List.range rows.length).map toString) ++
  ",\"data\":" ++ jsonArr (rows.map (fun r => jsonArr (r.map Value.toJson))) ++ "\x7d"

/-! ## The fingerprint commands -/

/-- Options of `hash-create`: algorithm, salt, excluded columns (the parsed
comma-separated list), chunk size. -/
structure HashOpts where
  algo : HashAlgo
  salt : String
  excludeCols : List String
  chunkSize : Nat
deriving DecidableEq, Repr

/-- The sequence of chunk JSON strings `hash_create` feeds to the digest. -/
def hash_create_stream (t : TableData) (excludeCols : List String) (cs : Nat) : List String :=
  (chunksWithEmpty cs
      (selectOrdered t (hash_create_queryCols t.info excludeCols)
        (hash_create_orderBy t.info excludeCols))).map
    (chunkToJson (hash_create_queryCols t.info excludeCols))

/-- `hash_create` (audit.py lines 128-189): NotFound when PRAGMA table_info
is empty; a storage error (caught and fatal to the invocation) when the
select clause is empty or the chunk size is invalid; otherwise the digest of
salt followed by the chunk JSONs, in canonical row order. -/
def hash_create (t : TableData) (o : HashOpts) : Except AuditError Digest :=
  if t.info = [] then .error .notFound
  else if hash_create_queryCols t.info o.excludeCols = [] ∨ o.chunkSize = 0 then
    .error .storageError
  else .ok ⟨o.algo, o.salt :: hash_create_stream t o.excludeCols o.chunkSize⟩

/-- Options of `hash-verify` (it has no algorithm option: the algorithm is
re-derived from the expected hash's length; it adds a strict flag). -/
structure VerifyOpts where
  salt : String
  excludeCols : List String
  chunkSize : Nat
  strict : Bool
deriving DecidableEq, Repr

/-- The canonical textual form of the table's schema declaration, as stored
in `sqlite_master.sql` and fed to the digest in strict mode. -/
def colDef (ci : ColInfo) : String :=
  ci.name ++ " " ++ ci.declType ++ (if ci.pk > 0 then " PRIMARY KEY" else "")

/-- The `CREATE TABLE` statement `SELECT sql FROM sqlite_master` returns. -/
def ddlOf (tableName : String) (info : List ColInfo) : String :=
  "CREATE TABLE " ++ tableName ++ " (" ++ joinComma (info.map colDef) ++ ")"

/-- The sequence of chunk JSON strings `hash_verify` feeds to the digest
(the pipeline duplicated at audit.py lines 239-247). -/
def hash_verify_stream (t : TableData) (excludeCols : List String) (cs : Nat) : List String :=
  (chunksWithEmpty cs
      (selectOrdered t (hash_verify_queryCols t.info excludeCols)
        (hash_verify_orderBy t.info excludeCols))).map
    (chunkToJson (hash_verify_queryCols t.info excludeCols))

/-- The digest `hash_verify` computes for a table under a given algorithm:
salt, then in strict mode the DDL, then the chunk JSONs. -/
def hash_verify_computed (algo : HashAlgo) (tableName : String) (t : TableData)
    (o : VerifyOpts) : Except AuditError Digest :=
  if t.info = [] then .error .notFound
  else if hash_verify_queryCols t.info o.excludeCols = [] ∨ o.chunkSize = 0 then
    .error .storageError
  else
    .ok ⟨algo,
      o.salt :: ((if o.strict then [ddlOf tableName t.info] else []) ++
        hash_verify_stream t o.excludeCols o.chunkSize)⟩

/-- Outcome of `hash-verify`: either an abort (invalid hash length, missing
table, storage error — printed and exited before any verdict), or a
completed verification carrying the match flag, both digests as reported to
the user, and the process exit code. -/
inductive VerifyOutcome where
  | aborted (e : AuditError) : VerifyOutcome
  | completed (matched : Bool) (expected computed : Digest) (exitCode : Nat) : VerifyOutcome
deriving DecidableEq, Repr

/-- `hash_verify` (audit.py lines 191-302): derive the algorithm from the
expected digest's length (64 for sha256, 128 for sha512), recompute the
digest, and report the comparison.  A mismatch completes normally, printing
both the expected and the computed digest, and exits with code 1. -/
def hash_verify (tableName : String) (t : TableData) (expected : Digest)
    (o : VerifyOpts) : VerifyOutcome :=
  match hash_verify_computed (if expected.strLen = 64 then .sha256 else .sha512)
      tableName t o with
  | .error e => .aborted e
  | .ok computed =>
      if computed = expected then .completed true expected computed 0
      else .completed false expected computed 1

/-! ## Canonical order rule as the specification states it (spec section 4.1) -/

/-- Modelled from the spec, section 4.1: if primary-key columns exist, sort
by them in their declared order; otherwise sort by every included column, in
the dataset's declared column order.  Stated for comparison with the sort
keys `hash_create` and `hash_verify` derive from the source pipeline. -/
def canonicalSortKeySpec (info : List ColInfo) (included : List String) : List String :=
  if pkCols info ≠ [] then pkCols info else included

/-! ## Snapshot catalog (audit.py lines 337-413) -/

/-- A row of the `_wi_snapshots` metadata table (the creation timestamp is
irrelevant to every property below and is omitted). -/
structure SnapEntry where
  name : String
  originalTable : String
  snapshotTable : String
  comment : String
deriving DecidableEq, Repr

/-- The database: table name to table data (including physical snapshot
tables), plus the rows of the `_wi_snapshots` catalog. -/
structure Db where
  tables : List (String × TableData)
  catalog : List SnapEntry
deriving DecidableEq, Repr

/-- Lookup of a table by name (`sqlite_master` membership and reads). -/
def dbLookup (db : Db) (n : String) : Option TableData :=
  (db.tables.find? (fun p => p.1 == n)).map (·.2)

/-- `DROP TABLE n`: remove the binding. -/
def dbDrop (db : Db) (n : String) : Db :=
  ⟨db.tables.filter (fun p => !(p.1 == n)), db.catalog⟩

/-- Register a freshly created table (only ever called when `n` is absent,
or right after dropping it). -/
def dbCreate (db : Db) (n : String) (t : TableData) : Db :=
  ⟨(n, t) :: db.tables, db.catalog⟩

/-- Whether the first character list starts with the second. -/
def startsWithChars : List Char → List Char → Bool
  | _, [] => true
  | [], _ :: _ => false
  | c :: cs, p :: ps => c = p && startsWithChars cs ps

/-- Whether the character list contains the pattern as a contiguous run. -/
def hasSubChars (pat : List Char) : List Char → Bool
  | [] => startsWithChars [] pat
  | c :: cs => startsWithChars (c :: cs) pat || hasSubChars pat cs

/-- The SQLite affinity of a declared column type (the declared type a
column of a `CREATE TABLE ... AS SELECT` result carries), per the SQLite
affinity rules on type-name substrings. -/
def sqliteAffinity (ty : String) : String :=
  let hasSub : String → Bool := fun pat => hasSubChars pat.data ty.data
  if hasSub "INT" then "INT"
  else if hasSub "CHAR" || hasSub "CLOB" || hasSub "TEXT" then "TEXT"
  else if hasSub "BLOB" || ty = "" then "BLOB"
  else if hasSub "REAL" || hasSub "FLOA" || hasSub "DOUB" then "REAL"
  else "NUM"

/-- One column of a `CREATE TABLE ... AS SELECT *` result: the name and the
values survive, the primary-key flag does not, and the declared type is
reduced to the source column's affinity. -/
def ctasCol (ci : ColInfo) : ColInfo :=
  ⟨ci.name, sqliteAffinity ci.declType, 0⟩

/-- `CREATE TABLE ... AS SELECT * FROM t`: same column names and rows, no
primary key. -/
def ctasTable (t : TableData) : TableData :=
  ⟨t.info.map ctasCol, t.rows⟩

/-- The physical snapshot table name, the f-string
`_snapshot_` + name + `_` + table_name of audit.py lines 345 and 388. -/
def physSnapshotName (name tableName : String) : String :=
  "_snapshot_" ++ name ++ "_" ++ tableName

/-- Outcome of the `snapshot` command. -/
inductive SnapOutcome where
  | created : SnapOutcome
  | alreadyExistsErr : SnapOutcome
  | failed : SnapOutcome
deriving DecidableEq, Repr

/-- `snapshot` (audit.py lines 337-378): refuse when the physical snapshot
table already exists (nothing has been executed yet, so the database is
untouched); otherwise copy the source table with CREATE TABLE ... AS and
append the catalog row.  A missing source table makes the copy statement
raise, caught as a fatal error with nothing created. -/
def snapshot (db : Db) (tableName name comment : String) : Db × SnapOutcome :=
  if (dbLookup db (physSnapshotName name tableName)).isSome then (db, .alreadyExistsErr)
  else
    match dbLookup db tableName with
    | none => (db, .failed)
    | some t =>
        (⟨(physSnapshotName name tableName, ctasTable t) :: db.tables,
          db.catalog ++ [⟨name, tableName, physSnapshotName name tableName, comment⟩]⟩,
          .created)

/-- Fault injection point for `rollback`: whether the
`CREATE TABLE ... AS SELECT` statement raises (e.g. a storage I/O error)
after the `DROP TABLE` has already auto-committed. -/
inductive RbFault where
  | fNone : RbFault
  | failCreate : RbFault
deriving DecidableEq, Repr

/-- Outcome of the `rollback` command. -/
inductive RbOutcome where
  | notFoundErr : RbOutcome
  | dryRunReport (currRows snapRows : Nat) : RbOutcome
  | restored : RbOutcome
  | failed : RbOutcome
deriving DecidableEq, Repr

/-- `rollback` (audit.py lines 380-413): error when the physical snapshot
table is absent; in a dry run report the two row counts and mutate nothing;
otherwise DROP the live table and recreate it from the snapshot.  Python's
sqlite3 runs DDL in autocommit mode (implicit transactions are opened only
before DML), so the DROP is durable before the CREATE starts: if the CREATE
raises (`fault = failCreate`), the except-handler merely prints and exits,
leaving the table dropped. -/
def rollback (db : Db) (tableName snapshotId : String) (dryRun : Bool)
    (fault : RbFault) : Db × RbOutcome :=
  match dbLookup db (physSnapshotName snapshotId tableName) with
  | none => (db, .notFoundErr)
  | some snap =>
      match dbLookup db tableName with
      | none => (db, .failed)
      | some t =>
          if dryRun then (db, .dryRunReport t.rows.length snap.rows.length)
          else
            let db1 := dbDrop db tableName
            match fault with
            | .failCreate => (db1, .failed)
            | .fNone => (dbCreate db1 tableName (ctasTable snap), .restored)

/-! ## Drift detector (ops.py lines 351-419) -/

/-- The values a table holds in a named column, in storage order. -/
def colVals (t : TableData) (c : String) : List Value :=
  t.rows.map (fun r => rowVal t.info r c)

/-- Whether a value is an SQL integer. -/
def Value.isInt : Value → Bool
  | .int _ => true
  | _ => false

/-- Whether pandas assigns the column a numeric dtype after `read_sql`:
every value is an integer or NULL, and at least one is an integer (an
all-NULL or empty column comes back with object dtype). -/
def numericDtype (vals : List Value) : Bool :=
  vals.any Value.isInt && vals.all (fun v => Value.isInt v || v == .null)

/-- `df.select_dtypes(include=['number']).columns` of the live table. -/
def numericCols (t : TableData) : List String :=
  (allCols t.info).filter (fun c => numericDtype (colVals t c))

/-- `.dropna()`. -/
def dropNulls (vals : List Value) : List Value :=
  vals.filter (fun v => !(v == .null))

/-- Per-column verdict of the drift report. -/
inductive ColVerdict where
  | insufficientData : ColVerdict
  | drift (stat p : ℚ) : ColVerdict
  | ok (stat p : ℚ) : ColVerdict
deriving DecidableEq, Repr

/-- Whether a verdict is `drift`. -/
def ColVerdict.isDrift : ColVerdict → Bool
  | .drift _ _ => true
  | _ => false

/-- One iteration of the drift loop: a column absent from the baseline is
skipped silently; otherwise NULLs are dropped on each side independently,
an empty side yields `insufficient_data` with no statistic computed, and
otherwise the two-sample KS test (`ks`, the external `scipy.stats.ks_2samp`
collaborator) decides `drift` exactly when its p-value is strictly below
the threshold.  Statistics and p-values are modelled as rationals. -/
def driftStep (ks : List Value → List Value → ℚ × ℚ) (curr base : TableData)
    (threshold : ℚ) (col : String) : Option (String × ColVerdict) :=
  if (allCols base.info).contains col then
    let currData := dropNulls (colVals curr col)
    let baseData := dropNulls (colVals base col)
    if currData.length = 0 ∨ baseData.length = 0 then
      some (col, .insufficientData)
    else
      let sp := ks currData baseData
      some (col, if sp.2 < threshold then .drift sp.1 sp.2 else .ok sp.1 sp.2)
  else none

/-- The drift loop over the live table's numeric columns, accumulating the
report rows and the `drift_detected` flag exactly as the source's for-loop
does. -/
def driftLoop (ks : List Value → List Value → ℚ × ℚ) (curr base : TableData)
    (threshold : ℚ) : List String → List (String × ColVerdict) × Bool
  | [] => ([], false)
  | col :: rest =>
      match driftStep ks curr base threshold col with
      | none => driftLoop ks curr base threshold rest
      | some e =>
          let acc := driftLoop ks curr base threshold rest
          (e :: acc.1, e.2.isDrift || acc.2)

/-- Outcome of `drift-check`: a missing baseline snapshot or a read failure
aborts with the snapshot name in the message; otherwise a report of
per-column verdicts plus the overall drift flag (which also drives the
exit code). -/
inductive DriftOutcome where
  | snapshotNotFound (baseline tableName : String) : DriftOutcome
  | dbError : DriftOutcome
  | report (rows : List (String × ColVerdict)) (driftDetected : Bool) : DriftOutcome
deriving DecidableEq, Repr

/-- `drift_check` (ops.py lines 351-419): resolve the physical baseline
table, read both sides, and run the KS loop over the live table's numeric
columns. -/
def drift_check (ks : List Value → List Value → ℚ × ℚ) (db : Db)
    (tableName baseline : String) (threshold : ℚ) : DriftOutcome :=
  match dbLookup db (physSnapshotName baseline tableName) with
  | none => .snapshotNotFound baseline tableName
  | some base =>
      match dbLookup db tableName with
      | none => .dbError
      | some curr =>
          .report (driftLoop ks curr base threshold (numericCols curr)).1
            (driftLoop ks curr base threshold (numericCols curr)).2

/-- Modelled from the spec, section 4.4: the verdict for a column present on
both sides — `insufficient_data` when a side is empty after dropping NULLs,
else `drift` exactly when the KS p-value is strictly below the threshold. -/
def driftVerdictSpec (ks : List Value → List Value → ℚ × ℚ) (curr base : TableData)
    (threshold : ℚ) (col : String) : ColVerdict :=
  let currData := dropNulls (colVals curr col)
  let baseData := dropNulls (colVals base col)
  if currData = [] ∨ baseData = [] then .insufficientData
  else
    let sp := ks currData baseData
    if sp.2 < threshold then .drift sp.1 sp.2 else .ok sp.1 sp.2

/-! ## Concrete example data used by witnesses and counterexamples -/

/-- The spec's concrete scenario, section 8: table `orders` with an `id`
primary key and a `total` column. -/
def ordersTable : TableData :=
  ⟨[⟨"id", "INTEGER", 1⟩, ⟨"total", "INTEGER", 0⟩], [[.int 1, .int 5], [.int 2, .int 3]]⟩

/-- A one-column table with no primary key. -/
def plainTable : TableData :=
  ⟨[⟨"v", "INTEGER", 0⟩], [[.int 7], [.int 9]]⟩

/-- Default `hash-create` options: sha256, empty salt, nothing excluded,
chunk size 10000. -/
def defaultOpts : HashOpts := ⟨.sha256, "", [], 10000⟩

/-! ## Helper lemmas -/

theorem hash_verify_queryCols_eq_create : hash_verify_queryCols = hash_create_queryCols := rfl

theorem hash_verify_stream_eq_create : hash_verify_stream = hash_create_stream := rfl

/-- Without strict mode, `hash_verify` recomputes exactly the digest
`hash_create` produces for the same algorithm, salt, exclusions and chunk
size. -/
theorem hash_verify_computed_nonstrict (algo : HashAlgo) (tn : String) (t : TableData)
    (salt : String) (ex : List String) (cs : Nat) :
    hash_verify_computed algo tn t ⟨salt, ex, cs, false⟩ = hash_create t ⟨algo, salt, ex, cs⟩ := rfl

/-! ## C1: verification round-trip -/

/-- C1: for every existing dataset and fixed options (algorithm, salt,
excluded columns, chunk size), verifying the fingerprint `hash_create` just
produced on the unchanged dataset reports a match: the `hash_verify` run
completes with `matched = true` (and exit code 0). -/
theorem hash_verify_roundtrip (tn : String) (t : TableData) (o : HashOpts) (d : Digest)
    (h : hash_create t o = .ok d) :
    hash_verify tn t d ⟨o.salt, o.excludeCols, o.chunkSize, false⟩ =
      .completed true d d 0 := by
  have hd : d = ⟨o.algo, o.salt :: hash_create_stream t o.excludeCols o.chunkSize⟩ := by
    unfold hash_create at h
    by_cases h1 : t.info = []
    · rw [if_pos h1] at h; exact absurd h (by simp)
    · rw [if_neg h1] at h
      by_cases h2 : hash_create_queryCols t.info o.excludeCols = [] ∨ o.chunkSize = 0
      · rw [if_pos h2] at h; exact absurd h (by simp)
      · rw [if_neg h2] at h
        cases h
        rfl
  have hcomp : hash_verify_computed o.algo tn t ⟨o.salt, o.excludeCols, o.chunkSize, false⟩ =
      .ok d := by
    rw [hash_verify_computed_nonstrict]
    exact h
  subst hd
  unfold hash_verify
  cases halg : o.algo <;>
    simp only [Digest.strLen, halg, if_pos rfl, reduceIte] <;>
    rw [halg] at hcomp <;>
    simp [hcomp]

/-- Witness for C1 at the concrete `orders` table with default options. -/
theorem hash_verify_roundtrip_witness :
    hash_verify "orders" ordersTable
        ⟨.sha256, "" :: hash_create_stream ordersTable [] 10000⟩
        ⟨"", [], 10000, false⟩ =
      .completed true ⟨.sha256, "" :: hash_create_stream ordersTable [] 10000⟩
        ⟨.sha256, "" :: hash_create_stream ordersTable [] 10000⟩ 0 :=
  hash_verify_roundtrip "orders" ordersTable defaultOpts _ (by rfl)

/-! ## C2: mismatch is reported, not raised -/

/-- C2: `hash_verify` never aborts on a fingerprint mismatch: whenever the
digest computation itself succeeds and the computed digest differs from the
expected one, the command completes with `matched = false`, and the failure
report carries both the expected and the computed digest (the command then
exits with code 1, the CLI convention for a negative verification outcome,
not an error abort). -/
theorem hash_verify_mismatch_reported (tn : String) (t : TableData) (expected : Digest)
    (o : VerifyOpts) (computed : Digest)
    (hc : hash_verify_computed (if expected.strLen = 64 then .sha256 else .sha512) tn t o =
      .ok computed)
    (hne : computed ≠ expected) :
    hash_verify tn t expected o = .completed false expected computed 1 := by
  unfold hash_verify
  rw [hc]
  simp [hne]

/-- Witness for C2: verifying a wrong sha256-length digest against the
`orders` table completes with a mismatch report holding both digests. -/
theorem hash_verify_mismatch_reported_witness :
    hash_verify "orders" ordersTable ⟨.sha256, ["deadbeef"]⟩ ⟨"", [], 10000, false⟩ =
      .completed false ⟨.sha256, ["deadbeef"]⟩
        ⟨.sha256, "" :: hash_verify_stream ordersTable [] 10000⟩ 1 :=
  hash_verify_mismatch_reported "orders" ordersTable ⟨.sha256, ["deadbeef"]⟩
    ⟨"", [], 10000, false⟩ ⟨.sha256, "" :: hash_verify_stream ordersTable [] 10000⟩
    (by rfl) (by decide)

/-! ## C6: canonical row order rule -/

/-- C6: the sort key the fingerprint commands derive follows the canonical
order rule of the spec (primary-key columns in their declared order when any
exist, otherwise every included column in the dataset's declared column
order — declared order meaning the order `PRAGMA table_info` reports), and
`hash_create` and `hash_verify` apply the identical rule. -/
theorem canonical_sort_key_rule (info : List ColInfo) (excluded : List String) :
    hash_create_orderBy info excluded =
      canonicalSortKeySpec info (hash_create_queryCols info excluded) ∧
    hash_verify_orderBy info excluded = hash_create_orderBy info excluded ∧
    (pkCols info = [] ∨ hash_create_orderBy info excluded = pkCols info) ∧
    (pkCols info ≠ [] ∨ hash_create_orderBy info excluded =
      hash_create_queryCols info excluded) := by
  refine ⟨rfl, rfl, ?_, ?_⟩ <;> by_cases h : pkCols info = [] <;>
    simp [hash_create_orderBy, h]

/-! ## C7: snapshot uniqueness per (source table, name) -/

/-- C7: creating the same snapshot twice without an intervening deletion
makes the second call fail with the already-exists error, and the failed
second attempt returns the database — the source table's data and the
existing snapshot included — entirely unchanged. -/
theorem snapshot_collision_second_fails (db : Db) (tn s c c' : String) (t : TableData)
    (ht : dbLookup db tn = some t)
    (hfree : dbLookup db (physSnapshotName s tn) = none) :
    (snapshot db tn s c).2 = .created ∧
    snapshot (snapshot db tn s c).1 tn s c' = ((snapshot db tn s c).1, .alreadyExistsErr) := by
  have h1 : snapshot db tn s c =
      (⟨(physSnapshotName s tn, ctasTable t) :: db.tables,
        db.catalog ++ [⟨s, tn, physSnapshotName s tn, c⟩]⟩, .created) := by
    unfold snapshot
    rw [hfree, ht]
    rfl
  have h2 : dbLookup (⟨(physSnapshotName s tn, ctasTable t) :: db.tables,
        db.catalog ++ [⟨s, tn, physSnapshotName s tn, c⟩]⟩ : Db) (physSnapshotName s tn) =
      some (ctasTable t) := by
    simp [dbLookup, List.find?]
  constructor
  · rw [h1]
  · simp only [h1]
    unfold snapshot
    rw [h2]
    rfl

/-- Witness for C7 on a concrete one-table database. -/
theorem snapshot_collision_second_fails_witness :
    (snapshot ⟨[("t", plainTable)], []⟩ "t" "s" "").2 = .created ∧
    snapshot (snapshot ⟨[("t", plainTable)], []⟩ "t" "s" "").1 "t" "s" "x" =
      ((snapshot ⟨[("t", plainTable)], []⟩ "t" "s" "").1, .alreadyExistsErr) :=
  snapshot_collision_second_fails ⟨[("t", plainTable)], []⟩ "t" "s" "" "x" plainTable
    (by decide) (by decide)

/-! ## C10: the physical snapshot name is not injective -/

/-- Source table for the C10 scenario. -/
def c10X : TableData := ⟨[⟨"v", "INTEGER", 0⟩], [[.int 1]]⟩

/-- Second table for the C10 scenario, with different contents. -/
def c10B : TableData := ⟨[⟨"v", "INTEGER", 0⟩], [[.int 2]]⟩

/-- Database holding the tables `x_b` and `b` for the C10 scenario. -/
def c10Db : Db := ⟨[("x_b", c10X), ("b", c10B)], []⟩

/-- C10: the mapping from a (source table, snapshot name) pair to the
physical snapshot table `_snapshot_` + name + `_` + table is not injective:
the pairs (`x_b`, `a`) and (`b`, `a_x`) collide, so after snapshotting
`x_b` as `a`, creating snapshot `a_x` of `b` fails with already-exists even
though that pair was never catalogued, and rolling `b` back from `a_x`
reads — and installs into `b` — the snapshot taken of `x_b`. -/
theorem snapshot_phys_name_not_injective :
    physSnapshotName "a" "x_b" = physSnapshotName "a_x" "b" ∧
    ¬ (("x_b", "a") = (("b", "a_x") : String × String)) ∧
    (snapshot c10Db "x_b" "a" "").2 = .created ∧
    ((snapshot c10Db "x_b" "a" "").1.catalog.all
      (fun e => !(e.originalTable == "b" && e.name == "a_x"))) = true ∧
    (snapshot (snapshot c10Db "x_b" "a" "").1 "b" "a_x" "").2 = .alreadyExistsErr ∧
    (rollback (snapshot c10Db "x_b" "a" "").1 "b" "a_x" false .fNone).2 = .restored ∧
    dbLookup (rollback (snapshot c10Db "x_b" "a" "").1 "b" "a_x" false .fNone).1 "b" =
      some (ctasTable (ctasTable c10X)) := by
  decide

/-! ## C3: rollback is not atomic on failure -/

/-- Database holding a table and its snapshot for the C3 scenario. -/
def c3Db : Db := ⟨[("t", plainTable), ("_snapshot_s_t", ctasTable plainTable)], []⟩

/-- C3 (refuting the claimed atomicity, which the spec requires of the
code): Python's sqlite3 auto-commits DDL, so `rollback`'s DROP TABLE is
durable before the CREATE TABLE ... AS starts; when that second statement
fails, the command reports the error and leaves the table dropped and not
recreated — its prior contents are destroyed, not observably unchanged. -/
theorem rollback_drop_not_recreated :
    (rollback c3Db "t" "s" false .failCreate).2 = .failed ∧
    dbLookup (rollback c3Db "t" "s" false .failCreate).1 "t" = none ∧
    dbLookup c3Db "t" = some plainTable := by
  decide

/-! ## C4: snapshot-then-restore and the fingerprint -/

theorem allCols_ctas (info : List ColInfo) : allCols (info.map ctasCol) = allCols info := by
  simp [allCols, List.map_map, ctasCol, Function.comp]

theorem pkCols_ctas (info : List ColInfo) : pkCols (info.map ctasCol) = [] := by
  induction info with
  | nil => rfl
  | cons ci rest ih => simp [pkCols, ctasCol] at ih ⊢

theorem colIdx_ctas (info : List ColInfo) (c : String) :
    colIdx (info.map ctasCol) c = colIdx info c := by
  induction info with
  | nil => rfl
  | cons ci rest ih => simp [colIdx, ctasCol, ih]

theorem rowVal_ctas (info : List ColInfo) :
    rowVal (info.map ctasCol) = rowVal info := by
  funext row c
  simp [rowVal, colIdx_ctas]

theorem selectOrdered_ctas (t : TableData) (cols order : List String) :
    selectOrdered (ctasTable t) cols order = selectOrdered t cols order := by
  simp [selectOrdered, ctasTable, sortKey, projectRow, rowVal_ctas]

theorem hash_create_queryCols_ctas (info : List ColInfo) (e : List String) :
    hash_create_queryCols (info.map ctasCol) e = hash_create_queryCols info e := by
  simp [hash_create_queryCols, allCols_ctas]

theorem hash_create_orderBy_ctas (info : List ColInfo) (e : List String)
    (hpk : pkCols info = []) :
    hash_create_orderBy (info.map ctasCol) e = hash_create_orderBy info e := by
  unfold hash_create_orderBy
  rw [pkCols_ctas, hpk]
  simp [hash_create_queryCols_ctas]

theorem hash_create_stream_ctas (t : TableData) (e : List String) (cs : Nat)
    (hpk : pkCols t.info = []) :
    hash_create_stream (ctasTable t) e cs = hash_create_stream t e cs := by
  have hq : hash_create_queryCols (ctasTable t).info e = hash_create_queryCols t.info e := by
    simp only [ctasTable]
    exact hash_create_queryCols_ctas t.info e
  have ho : hash_create_orderBy (ctasTable t).info e = hash_create_orderBy t.info e := by
    simp only [ctasTable]
    exact hash_create_orderBy_ctas t.info e hpk
  unfold hash_create_stream
  rw [hq, ho, selectOrdered_ctas]

/-- Equality of `Except` results is decidable for the audited commands. -/
instance : DecidableEq (Except AuditError Digest) := fun a b => by
  cases a <;> cases b <;>
    first
      | (exact .isFalse (by intro h; exact Except.noConfusion h))
      | exact decidable_of_iff _ (by rw [Except.error.injEq])
      | exact decidable_of_iff _ (by rw [Except.ok.injEq])

/-- A `CREATE TABLE ... AS SELECT *` copy of a table with no primary key has
the same fingerprint as the original: the column names, row contents and
canonical order all survive the copy. -/
theorem hash_create_ctas (t : TableData) (o : HashOpts) (hpk : pkCols t.info = []) :
    hash_create (ctasTable t) o = hash_create t o := by
  by_cases hi : t.info = []
  · unfold hash_create
    simp [ctasTable, hi]
  · have hi' : ¬ (ctasTable t).info = [] := by
      simp [ctasTable, hi]
    have hq : hash_create_queryCols (ctasTable t).info o.excludeCols =
        hash_create_queryCols t.info o.excludeCols := by
      simp only [ctasTable]
      exact hash_create_queryCols_ctas t.info o.excludeCols
    unfold hash_create
    rw [if_neg hi', if_neg hi, hq,
      hash_create_stream_ctas t o.excludeCols o.chunkSize hpk]

/-- C4 counterexample data: a table whose primary key is its second declared
column, with rows whose primary-key order differs from the order by all
columns. -/
def c4T : TableData :=
  ⟨[⟨"a", "INTEGER", 0⟩, ⟨"b", "INTEGER", 1⟩], [[.int 2, .int 1], [.int 1, .int 2]]⟩

/-- Database holding the C4 counterexample table. -/
def c4Db : Db := ⟨[("t", c4T)], []⟩

/-- C4 counterexample: `CREATE TABLE ... AS SELECT` drops the primary key,
so restoring a primary-keyed table from its own just-taken snapshot changes
the canonical row order the fingerprint streams (the restored table falls
back to sorting by all included columns) — the fingerprint, computed with
identical options before and after, changes. -/
theorem snapshot_restore_changes_pk_fingerprint :
    (snapshot c4Db "t" "s" "").2 = .created ∧
    (rollback (snapshot c4Db "t" "s" "").1 "t" "s" false .fNone).2 = .restored ∧
    hash_create
        ((dbLookup (rollback (snapshot c4Db "t" "s" "").1 "t" "s" false .fNone).1 "t").getD
          ⟨[], []⟩) defaultOpts ≠
      hash_create c4T defaultOpts := by
  decide

/-- C4 as amended: for a table with no declared primary key, creating a
snapshot and immediately rolling back from it (non-dry-run, no intervening
mutation) leaves the table's fingerprint unchanged for any fixed options. -/
theorem snapshot_restore_fingerprint_no_pk (db : Db) (tn s c : String) (t : TableData)
    (o : HashOpts) (ht : dbLookup db tn = some t) (hpk : pkCols t.info = [])
    (hfree : dbLookup db (physSnapshotName s tn) = none) :
    (snapshot db tn s c).2 = .created ∧
    (rollback (snapshot db tn s c).1 tn s false .fNone).2 = .restored ∧
    hash_create ((dbLookup (rollback (snapshot db tn s c).1 tn s false .fNone).1 tn).getD
        ⟨[], []⟩) o = hash_create t o := by
  have hne : (physSnapshotName s tn == tn) = false := by
    rw [beq_eq_false_iff_ne]
    intro he
    rw [he, ht] at hfree
    exact Option.noConfusion hfree
  have h1 : snapshot db tn s c =
      (⟨(physSnapshotName s tn, ctasTable t) :: db.tables,
        db.catalog ++ [⟨s, tn, physSnapshotName s tn, c⟩]⟩, .created) := by
    unfold snapshot
    rw [hfree, ht]
    rfl
  have hb : dbLookup (⟨(physSnapshotName s tn, ctasTable t) :: db.tables,
        db.catalog ++ [⟨s, tn, physSnapshotName s tn, c⟩]⟩ : Db) (physSnapshotName s tn) =
      some (ctasTable t) := by
    simp [dbLookup, List.find?]
  have hcur : dbLookup (⟨(physSnapshotName s tn, ctasTable t) :: db.tables,
        db.catalog ++ [⟨s, tn, physSnapshotName s tn, c⟩]⟩ : Db) tn = some t := by
    unfold dbLookup at ht ⊢
    simp only [List.find?, hne]
    exact ht
  have h2 : rollback (snapshot db tn s c).1 tn s false .fNone =
      (dbCreate (dbDrop (snapshot db tn s c).1 tn) tn (ctasTable (ctasTable t)),
        .restored) := by
    simp only [h1]
    unfold rollback
    rw [hb, hcur]
    rfl
  refine ⟨by rw [h1], by rw [h2], ?_⟩
  rw [h2]
  have h3 : dbLookup (dbCreate (dbDrop (snapshot db tn s c).1 tn) tn
      (ctasTable (ctasTable t))) tn = some (ctasTable (ctasTable t)) := by
    simp [dbCreate, dbLookup, List.find?]
  simp only [h3, Option.getD_some]
  rw [hash_create_ctas _ o (by simpa [ctasTable] using pkCols_ctas t.info),
    hash_create_ctas t o hpk]

/-- Witness for the amended C4 on a concrete primary-key-free table. -/
theorem snapshot_restore_fingerprint_no_pk_witness :
    (snapshot ⟨[("t", plainTable)], []⟩ "t" "s" "").2 = .created ∧
    (rollback (snapshot ⟨[("t", plainTable)], []⟩ "t" "s" "").1 "t" "s" false .fNone).2 =
      .restored ∧
    hash_create
        ((dbLookup (rollback (snapshot ⟨[("t", plainTable)], []⟩ "t" "s" "").1
            "t" "s" false .fNone).1 "t").getD ⟨[], []⟩) defaultOpts =
      hash_create plainTable defaultOpts :=
  snapshot_restore_fingerprint_no_pk ⟨[("t", plainTable)], []⟩ "t" "s" "" plainTable
    defaultOpts (by decide) (by decide) (by decide)

/-! ## C5: excluded columns and the fingerprint -/

/-- Two rows agree on every listed column. -/
def rowsAgree (info : List ColInfo) (cols : List String) (r s : List Value) : Prop :=
  ∀ c ∈ cols, rowVal info r c = rowVal info s c

instance (info : List ColInfo) (cols : List String) (r s : List Value) :
    Decidable (rowsAgree info cols r s) :=
  List.decidableBAll _ cols

theorem listMapCongr {f g : α → β} (l : List α) (h : ∀ a ∈ l, f a = g a) :
    l.map f = l.map g := by
  induction l with
  | nil => rfl
  | cons a rest ih =>
      simp only [List.map_cons, h a (List.mem_cons_self a rest)]
      rw [ih (fun b hb => h b (List.mem_cons_of_mem a hb))]

theorem insertSorted_forall₂ {R : α → α → Prop} {le : α → α → Bool}
    (hle : ∀ a a' b b', R a a' → R b b' → le a b = le a' b') {a a' : α}
    (haa : R a a') : ∀ {l l' : List α}, List.Forall₂ R l l' →
      List.Forall₂ R (insertSorted le a l) (insertSorted le a' l') := by
  intro l l' hll
  induction hll with
  | nil => exact .cons haa .nil
  | @cons b b' bs bs' hbb hrest ih =>
      show List.Forall₂ R (insertSorted le a (b :: bs)) (insertSorted le a' (b' :: bs'))
      unfold insertSorted
      rw [hle a a' b b' haa hbb]
      by_cases h : le a' b' = true
      · rw [if_pos h, if_pos h]
        exact .cons haa (.cons hbb hrest)
      · rw [if_neg h, if_neg h]
        exact .cons hbb ih

theorem sortBy_forall₂ {R : α → α → Prop} {le : α → α → Bool}
    (hle : ∀ a a' b b', R a a' → R b b' → le a b = le a' b') :
    ∀ {l l' : List α}, List.Forall₂ R l l' →
      List.Forall₂ R (sortBy le l) (sortBy le l') := by
  intro l l' h
  induction h with
  | nil => exact .nil
  | cons haa _ ih => exact insertSorted_forall₂ hle haa ih

theorem map_eq_of_forall₂ {R : α → α → Prop} {f g : α → β}
    (hfg : ∀ a b, R a b → f a = g b) :
    ∀ {l l' : List α}, List.Forall₂ R l l' → l.map f = l'.map g := by
  intro l l' h
  induction h with
  | nil => rfl
  | cons hab _ ih => simp only [List.map_cons, ih, hfg _ _ hab]

/-- C5 counterexample data: `orders`-like schema whose primary key `id` is
then excluded from hashing. -/
def c5Info : List ColInfo := [⟨"id", "INTEGER", 1⟩, ⟨"v", "INTEGER", 0⟩]

/-- C5 counterexample options: exclude the primary-key column `id`. -/
def c5Opts : HashOpts := ⟨.sha256, "", ["id"], 10000⟩

/-- C5 counterexample rows, first state. -/
def c5RowsA : List (List Value) := [[.int 1, .int 10], [.int 2, .int 20]]

/-- C5 counterexample rows: the same state with only the excluded `id`
values changed (every non-excluded cell agrees row by row). -/
def c5RowsB : List (List Value) := [[.int 2, .int 10], [.int 1, .int 20]]

/-- C5 counterexample: when an excluded column is part of the primary key,
the excluded values still drive the ORDER BY, so two states that differ
only in the excluded column produce different fingerprints — the claimed
noninterference fails. -/
theorem excluded_pk_influences_fingerprint :
    List.Forall₂ (rowsAgree c5Info (hash_create_queryCols c5Info ["id"])) c5RowsA c5RowsB ∧
    hash_create ⟨c5Info, c5RowsA⟩ c5Opts ≠ hash_create ⟨c5Info, c5RowsB⟩ c5Opts := by
  constructor
  · exact .cons (by decide) (.cons (by decide) .nil)
  · decide

/-- C5 as amended: excluded columns do not influence the fingerprint
provided no excluded column belongs to the primary key (in particular,
always, when the table has no primary key): any two states whose rows agree
pairwise on every included column hash identically. -/
theorem excluded_cols_noninterference (info : List ColInfo) (o : HashOpts)
    (rows₁ rows₂ : List (List Value))
    (hagree : List.Forall₂ (rowsAgree info (hash_create_queryCols info o.excludeCols))
      rows₁ rows₂)
    (hpk : ∀ c ∈ pkCols info, ¬ (o.excludeCols.contains c = true)) :
    hash_create ⟨info, rows₁⟩ o = hash_create ⟨info, rows₂⟩ o := by
  have hsub : ∀ c ∈ hash_create_orderBy info o.excludeCols,
      c ∈ hash_create_queryCols info o.excludeCols := by
    intro c hc
    unfold hash_create_orderBy at hc
    by_cases hp : pkCols info = []
    · rw [if_neg (by simp [hp])] at hc
      exact hc
    · rw [if_pos (by simp [hp])] at hc
      have hall : c ∈ allCols info := by
        unfold pkCols at hc
        rcases List.mem_map.1 hc with ⟨ci, hci, hname⟩
        exact List.mem_map.2 ⟨ci, List.mem_of_mem_filter hci, hname⟩
      unfold hash_create_queryCols
      exact List.mem_filter.2 ⟨hall, by simpa using hpk c hc⟩
  have hkey : ∀ r s : List Value,
      rowsAgree info (hash_create_queryCols info o.excludeCols) r s →
      sortKey info (hash_create_orderBy info o.excludeCols) r =
        sortKey info (hash_create_orderBy info o.excludeCols) s := by
    intro r s h
    unfold sortKey
    exact listMapCongr _ (fun c hc => h c (hsub c hc))
  have hsel : selectOrdered ⟨info, rows₁⟩ (hash_create_queryCols info o.excludeCols)
        (hash_create_orderBy info o.excludeCols) =
      selectOrdered ⟨info, rows₂⟩ (hash_create_queryCols info o.excludeCols)
        (hash_create_orderBy info o.excludeCols) := by
    unfold selectOrdered
    refine map_eq_of_forall₂ ?_ (sortBy_forall₂ ?_ hagree)
    · intro a b hab
      unfold projectRow
      exact listMapCongr _ (fun c hc => hab c hc)
    · intro a a' b b' ha hb
      dsimp only
      rw [hkey a a' ha, hkey b b' hb]
  have hstr : hash_create_stream ⟨info, rows₁⟩ o.excludeCols o.chunkSize =
      hash_create_stream ⟨info, rows₂⟩ o.excludeCols o.chunkSize := by
    unfold hash_create_stream
    dsimp only
    rw [hsel]
  unfold hash_create
  dsimp only
  rw [hstr]

/-- Witness schema for the amended C5: excluded column `ts` is not part of
the primary key. -/
def c5WInfo : List ColInfo :=
  [⟨"id", "INTEGER", 1⟩, ⟨"ts", "TEXT", 0⟩, ⟨"v", "INTEGER", 0⟩]

/-- Witness for the amended C5: mutating only the excluded `ts` column
leaves the fingerprint unchanged. -/
theorem excluded_cols_noninterference_witness :
    hash_create ⟨c5WInfo, [[.int 1, .text "a", .int 10]]⟩ ⟨.sha256, "", ["ts"], 10000⟩ =
      hash_create ⟨c5WInfo, [[.int 1, .text "b", .int 10]]⟩ ⟨.sha256, "", ["ts"], 10000⟩ :=
  excluded_cols_noninterference c5WInfo ⟨.sha256, "", ["ts"], 10000⟩
    [[.int 1, .text "a", .int 10]] [[.int 1, .text "b", .int 10]]
    (.cons (by decide) .nil) (by decide)

/-! ## C8: drift verdict rule -/

theorem driftStep_spec (ks : List Value → List Value → ℚ × ℚ) (curr base : TableData)
    (thr : ℚ) (col : String) :
    driftStep ks curr base thr col =
      if (allCols base.info).contains col then
        some (col, driftVerdictSpec ks curr base thr col)
      else none := by
  unfold driftStep driftVerdictSpec
  by_cases hb : (allCols base.info).contains col = true
  · rw [if_pos hb, if_pos hb]
    simp only [List.length_eq_zero]
    by_cases he : dropNulls (colVals curr col) = [] ∨ dropNulls (colVals base col) = []
    · rw [if_pos he, if_pos he]
    · rw [if_neg he, if_neg he]
  · rw [if_neg hb, if_neg hb]

theorem driftLoop_spec (ks : List Value → List Value → ℚ × ℚ) (curr base : TableData)
    (thr : ℚ) : ∀ cols : List String,
    driftLoop ks curr base thr cols =
      ((cols.filter (fun c => (allCols base.info).contains c)).map
          (fun c => (c, driftVerdictSpec ks curr base thr c)),
        ((cols.filter (fun c => (allCols base.info).contains c)).map
          (fun c => (c, driftVerdictSpec ks curr base thr c))).any
          (fun e => e.2.isDrift)) := by
  intro cols
  induction cols with
  | nil => rfl
  | cons c rest ih =>
      unfold driftLoop
      rw [driftStep_spec]
      by_cases hb : (allCols base.info).contains c = true
      · rw [if_pos hb]
        simp only [List.filter_cons, hb, if_true, List.map_cons, List.any_cons, ih]
      · rw [if_neg hb]
        simp only [List.filter_cons, hb, Bool.false_eq_true, if_false, ih]

/-- C8: for the baseline snapshot and live table both present, the drift
report lists exactly the live table's numeric columns that also exist in
the baseline (columns on one side only are silently skipped), each with the
spec verdict — `insufficient_data` when a side is empty after dropping
NULLs and no statistic is recorded, otherwise `drift` exactly when the KS
p-value is strictly below the threshold and `ok` otherwise — and the
overall report signals drift exactly when some listed column's verdict is
`drift`. -/
theorem drift_check_verdict_rule (ks : List Value → List Value → ℚ × ℚ) (db : Db)
    (tn b : String) (thr : ℚ) (base curr : TableData)
    (hb : dbLookup db (physSnapshotName b tn) = some base)
    (hc : dbLookup db tn = some curr) :
    drift_check ks db tn b thr =
      .report (((numericCols curr).filter (fun c => (allCols base.info).contains c)).map
          (fun c => (c, driftVerdictSpec ks curr base thr c)))
        ((((numericCols curr).filter (fun c => (allCols base.info).contains c)).map
            (fun c => (c, driftVerdictSpec ks curr base thr c))).any
          (fun e => e.2.isDrift)) := by
  unfold drift_check
  rw [hb, hc]
  dsimp only
  rw [driftLoop_spec]

/-- Live table for the C8 witness: the numeric column `v` has shifted far
from the baseline. -/
def c8Curr : TableData := ⟨[⟨"v", "INTEGER", 0⟩], [[.int 100], [.int 101]]⟩

/-- Baseline snapshot contents for the C8 witness. -/
def c8Base : TableData := ⟨[⟨"v", "INTEGER", 0⟩], [[.int 1], [.int 2]]⟩

/-- Database for the C8 witness. -/
def c8Db : Db := ⟨[("t", c8Curr), ("_snapshot_s_t", c8Base)], []⟩

/-- Witness for C8 with a concrete KS collaborator returning p = 1/100
under threshold 1/20. -/
theorem drift_check_verdict_rule_witness :
    drift_check (fun _ _ => (1, (1 : ℚ)/100)) c8Db "t" "s" ((1 : ℚ)/20) =
      .report (((numericCols c8Curr).filter
            (fun c => (allCols c8Base.info).contains c)).map
          (fun c => (c, driftVerdictSpec (fun _ _ => (1, (1 : ℚ)/100)) c8Curr c8Base
            ((1 : ℚ)/20) c)))
        ((((numericCols c8Curr).filter
            (fun c => (allCols c8Base.info).contains c)).map
          (fun c => (c, driftVerdictSpec (fun _ _ => (1, (1 : ℚ)/100)) c8Curr c8Base
            ((1 : ℚ)/20) c))).any (fun e => e.2.isDrift)) :=
  drift_check_verdict_rule (fun _ _ => (1, (1 : ℚ)/100)) c8Db "t" "s" ((1 : ℚ)/20)
    c8Base c8Curr (by decide) (by decide)

/-! ## C9: adding a column and the fingerprint -/

theorem strDataAppend (a b : String) : (a ++ b).data = a.data ++ b.data := rfl

theorem strDataSingleton (c : Char) : (String.singleton c).data = [c] := rfl

theorem strAppendAssoc (a b c : String) : (a ++ b) ++ c = a ++ (b ++ c) := by
  apply String.ext
  simp [strDataAppend]

/-- Two strings sharing a prefix but differing at the character right after
it are different. -/
theorem append_one_ne (P X Y : String) (a b : Char) (sa sb : String)
    (hsa : sa.data = [a]) (hsb : sb.data = [b]) (hab : a ≠ b) :
    P ++ (sa ++ X) ≠ P ++ (sb ++ Y) := by
  intro h
  have hd : P.data ++ (a :: X.data) = P.data ++ (b :: Y.data) := by
    have h2 := congrArg String.data h
    simpa [strDataAppend, hsa, hsb] using h2
  have h3 := List.append_cancel_left hd
  exact hab (List.head_eq_of_cons_eq h3)

theorem joinComma_append_last (l : List String) (x : String) (hl : l ≠ []) :
    joinComma (l ++ [x]) = joinComma l ++ ("," ++ x) := by
  induction l with
  | nil => exact absurd rfl hl
  | cons s rest ih =>
      cases rest with
      | nil => simp [joinComma, strAppendAssoc]
      | cons s2 rest2 =>
          have ih2 := ih (by simp)
          simp only [List.cons_append] at ih2 ⊢
          simp only [joinComma]
          rw [ih2]
          simp [strAppendAssoc]

/-- Serialized chunks record the column-name list: a chunk serialized with
one extra trailing column differs from any chunk serialized without it,
whatever the row data on either side. -/
theorem chunkToJson_cols_append_ne (qcols : List String) (cn : String)
    (d₁ d₂ : List (List Value)) (hq : qcols ≠ []) :
    chunkToJson (qcols ++ [cn]) d₁ ≠ chunkToJson qcols d₂ := by
  have hm : qcols.map jsonStr ≠ [] := by simpa using hq
  have e₁ : chunkToJson (qcols ++ [cn]) d₁ =
      ("\x7b\"columns\":" ++ ("[" ++ joinComma (qcols.map jsonStr))) ++
        ("," ++ (jsonStr cn ++ ("]" ++ (",\"index\":" ++ ("[" ++
          (joinComma ((List.range d₁.length).map toString) ++ ("]" ++ (",\"data\":" ++
            ("[" ++ (joinComma (d₁.map (fun r => jsonArr (r.map Value.toJson))) ++
              ("]" ++ "\x7d"))))))))))) := by
    unfold chunkToJson
    rw [List.map_append, show List.map jsonStr [cn] = [jsonStr cn] from rfl]
    unfold jsonArr
    rw [joinComma_append_last _ _ hm]
    apply String.ext
    simp [strDataAppend, List.append_assoc]
  have e₂ : chunkToJson qcols d₂ =
      ("\x7b\"columns\":" ++ ("[" ++ joinComma (qcols.map jsonStr))) ++
        ("]" ++ (",\"index\":" ++ ("[" ++
          (joinComma ((List.range d₂.length).map toString) ++ ("]" ++ (",\"data\":" ++
            ("[" ++ (joinComma (d₂.map (fun r => jsonArr (r.map Value.toJson))) ++
              ("]" ++ "\x7d"))))))))) := by
    unfold chunkToJson
    unfold jsonArr
    apply String.ext
    simp [strDataAppend, List.append_assoc]
  rw [e₁, e₂]
  exact append_one_ne _ _ _ ',' ']' "," "]" rfl rfl (by decide)

/-- The stored DDL records every declared column: a schema with one extra
trailing column renders to a different CREATE TABLE statement. -/
theorem ddlOf_append_ne (tn : String) (info : List ColInfo) (c : ColInfo)
    (h : info ≠ []) :
    ddlOf tn (info ++ [c]) ≠ ddlOf tn info := by
  have hm : info.map colDef ≠ [] := by simpa using h
  have e₁ : ddlOf tn (info ++ [c]) =
      ("CREATE TABLE " ++ (tn ++ (" (" ++ joinComma (info.map colDef)))) ++
        ("," ++ (colDef c ++ ")")) := by
    unfold ddlOf
    rw [List.map_append, show List.map colDef [c] = [colDef c] from rfl,
      joinComma_append_last _ _ hm]
    apply String.ext
    simp [strDataAppend, List.append_assoc]
  have e₂ : ddlOf tn info =
      ("CREATE TABLE " ++ (tn ++ (" (" ++ joinComma (info.map colDef)))) ++
        (")" ++ "") := by
    unfold ddlOf
    apply String.ext
    simp [strDataAppend, List.append_assoc]
  rw [e₁, e₂]
  exact append_one_ne _ _ _ ',' ')' "," ")" rfl rfl (by decide)

/-- The chunk stream always carries at least one chunk (an empty result
still yields one empty, column-bearing chunk). -/
theorem hash_verify_stream_head (t : TableData) (excl : List String) (cs : Nat) :
    ∃ ch rest, hash_verify_stream t excl cs =
      chunkToJson (hash_verify_queryCols t.info excl) ch :: rest := by
  unfold hash_verify_stream chunksWithEmpty
  cases hsel : selectOrdered t (hash_verify_queryCols t.info excl)
      (hash_verify_orderBy t.info excl) with
  | nil => exact ⟨[], [], rfl⟩
  | cons a rest =>
      refine ⟨(a :: rest).take cs, ((chunksOfAux cs rest.length ((a :: rest).drop cs)).map
        (chunkToJson (hash_verify_queryCols t.info excl))), ?_⟩
      simp [chunksOf, chunksOfAux]

/-- Appending a non-excluded column appends it to the selected column
list. -/
theorem hash_verify_queryCols_append (info : List ColInfo) (c : ColInfo)
    (e : List String) (hex : ¬ (e.contains c.name = true)) :
    hash_verify_queryCols (info ++ [c]) e = hash_verify_queryCols info e ++ [c.name] := by
  unfold hash_verify_queryCols allCols
  rw [List.map_append, List.filter_append]
  simp [show c.name ∉ e from by simpa using hex]

/-- C9 counterexample schema: a single column, no rows. -/
def c9T : TableData := ⟨[⟨"a", "INTEGER", 0⟩], []⟩

/-- C9 counterexample schema after adding column `b` (no row data changed —
there are no rows at all, so no row references the new column's default). -/
def c9T2 : TableData := ⟨[⟨"a", "INTEGER", 0⟩, ⟨"b", "INTEGER", 0⟩], []⟩

/-- C9 counterexample: adding a column changes the fingerprint even with
`strict = false` and even though no row references the new column's
default (the table has no rows): the serialized chunk — pandas yields one
empty chunk recording the column names — changes. -/
theorem added_column_changes_nonstrict_fingerprint :
    c9T2.rows = c9T.rows ∧
    hash_verify_computed .sha256 "t" c9T2 ⟨"", [], 10000, false⟩ ≠
      hash_verify_computed .sha256 "t" c9T ⟨"", [], 10000, false⟩ := by
  constructor
  · rfl
  · decide

/-- C9 as amended: adding a (non-excluded) column to the schema, with no
row data changed (existing rows take the new column's NULL default),
changes the fingerprint under `strict = true` — the hashed DDL changes —
and under `strict = false` as well, because the serialized chunks record
the included column names; only excluding the new column would leave the
fingerprint unchanged. -/
theorem added_column_changes_fingerprint (tn : String) (info : List ColInfo)
    (rows rows2 : List (List Value)) (o : VerifyOpts) (c : ColInfo) (algo : HashAlgo)
    (hinfo : info ≠ [])
    (hq : hash_verify_queryCols info o.excludeCols ≠ [])
    (hcs : o.chunkSize ≠ 0)
    (hex : ¬ (o.excludeCols.contains c.name = true))
    (hrows : rows2 = rows.map (fun r => r ++ [.null])) :
    hash_verify_computed algo tn ⟨info ++ [c], rows2⟩ o ≠
      hash_verify_computed algo tn ⟨info, rows⟩ o := by
  have hinfo2 : info ++ [c] ≠ [] := by simp
  have hq2 : hash_verify_queryCols (info ++ [c]) o.excludeCols ≠ [] := by
    rw [hash_verify_queryCols_append info c o.excludeCols hex]
    simp
  unfold hash_verify_computed
  dsimp only
  rw [if_neg hinfo2, if_neg hinfo,
    if_neg (show ¬ (hash_verify_queryCols (info ++ [c]) o.excludeCols = [] ∨
      o.chunkSize = 0) by simp [hq2, hcs]),
    if_neg (show ¬ (hash_verify_queryCols info o.excludeCols = [] ∨
      o.chunkSize = 0) by simp [hq, hcs])]
  intro h
  have hdig := Except.ok.inj h
  have htr : (if o.strict then [ddlOf tn (info ++ [c])] else []) ++
      hash_verify_stream ⟨info ++ [c], rows2⟩ o.excludeCols o.chunkSize =
      (if o.strict then [ddlOf tn info] else []) ++
        hash_verify_stream ⟨info, rows⟩ o.excludeCols o.chunkSize := by
    have := congrArg Digest.transcript hdig
    simpa using this
  obtain ⟨ch1, r1, hs1⟩ := hash_verify_stream_head ⟨info ++ [c], rows2⟩ o.excludeCols
    o.chunkSize
  obtain ⟨ch2, r2, hs2⟩ := hash_verify_stream_head ⟨info, rows⟩ o.excludeCols o.chunkSize
  cases hst : o.strict with
  | true =>
      rw [hst] at htr
      rw [if_pos rfl, if_pos rfl] at htr
      simp only [List.singleton_append] at htr
      exact ddlOf_append_ne tn info c hinfo (List.head_eq_of_cons_eq htr)
  | false =>
      rw [hst] at htr
      rw [if_neg (by simp), if_neg (by simp)] at htr
      simp only [List.nil_append] at htr
      rw [hs1, hs2] at htr
      have hhead := List.head_eq_of_cons_eq htr
      have hqc : hash_verify_queryCols (⟨info ++ [c], rows2⟩ : TableData).info
          o.excludeCols = hash_verify_queryCols info o.excludeCols ++ [c.name] := by
        dsimp only
        exact hash_verify_queryCols_append info c o.excludeCols hex
      rw [hqc] at hhead
      exact chunkToJson_cols_append_ne (hash_verify_queryCols info o.excludeCols)
        c.name ch1 ch2 hq hhead

/-- Witness for the amended C9: adding column `b` to a one-column,
one-row table changes the strict-mode digest. -/
theorem added_column_changes_fingerprint_witness :
    hash_verify_computed .sha256 "t"
        ⟨[⟨"a", "INTEGER", 0⟩] ++ [⟨"b", "INTEGER", 0⟩], [[.int 1, .null]]⟩
        ⟨"", [], 10000, true⟩ ≠
      hash_verify_computed .sha256 "t" ⟨[⟨"a", "INTEGER", 0⟩], [[.int 1]]⟩
        ⟨"", [], 10000, true⟩ :=
  added_column_changes_fingerprint "t" [⟨"a", "INTEGER", 0⟩] [[.int 1]]
    [[.int 1, .null]] ⟨"", [], 10000, true⟩ ⟨"b", "INTEGER", 0⟩ .sha256
    (by decide) (by decide) (by decide) (by decide) (by decide)
